import Mathlib

/-!
Verification of the provider abstraction and normalization layer of the
Frappe_Whatsapp repository (files `frappe_whatsapp/utils/providers.py`,
`frappe_whatsapp/utils/webhook.py`, and
`frappe_whatsapp/frappe_whatsapp/doctype/whatsapp_templates/whatsapp_templates.py`)
against its natural-language specification.

Python dictionaries and JSON payloads are embedded as the inductive type
`JVal`; stateful code (the Frappe record store, the mutation of the
caller-supplied request dict) is embedded by explicit state passing, and
code that can raise is embedded with `Except` / explicit result
constructors distinguishing a returned value, a `frappe.throw`, and an
uncaught Python exception.
-/

/-- A JSON value as produced by `response.json()` / consumed by the adapters.
Numbers and booleans never occur in the payload shapes the adapters touch,
so the embedding covers `null`, strings, arrays and objects (objects as
association lists, first occurrence of a key winning, as in a Python dict
that cannot hold duplicate keys). -/
inductive JVal where
  | null : JVal
  | str : String → JVal
  | arr : List JVal → JVal
  | obj : List (String × JVal) → JVal

namespace JVal

mutual

/-- Structural equality of JSON values (Python `==` on parsed JSON). -/
def beq : JVal → JVal → Bool
  | .null, .null => true
  | .str a, .str b => a == b
  | .arr a, .arr b => beqList a b
  | .obj a, .obj b => beqObj a b
  | _, _ => false

def beqList : List JVal → List JVal → Bool
  | [], [] => true
  | a :: as, b :: bs => beq a b && beqList as bs
  | _, _ => false

def beqObj : List (String × JVal) → List (String × JVal) → Bool
  | [], [] => true
  | (k1, v1) :: as, (k2, v2) :: bs => k1 == k2 && beq v1 v2 && beqObj as bs
  | _, _ => false

end

mutual

theorem beq_iff_eq : ∀ (a b : JVal), beq a b = true ↔ a = b
  | .null, b => by cases b <;> simp [beq]
  | .str _, b => by cases b <;> simp [beq]
  | .arr as, b => by
      cases b <;> simp [beq]
      exact beqList_iff_eq as _
  | .obj as, b => by
      cases b <;> simp [beq]
      exact beqObj_iff_eq as _

theorem beqList_iff_eq : ∀ (a b : List JVal), beqList a b = true ↔ a = b
  | [], b => by cases b <;> simp [beqList]
  | _ :: _, [] => by simp [beqList]
  | a :: as, b :: bs => by
      simp [beqList, beq_iff_eq a b, beqList_iff_eq as bs]

theorem beqObj_iff_eq : ∀ (a b : List (String × JVal)), beqObj a b = true ↔ a = b
  | [], b => by cases b <;> simp [beqObj]
  | _ :: _, [] => by simp [beqObj]
  | (k1, v1) :: as, (k2, v2) :: bs => by
      simp [beqObj, beq_iff_eq v1 v2, beqObj_iff_eq as bs, and_assoc]

end

instance : BEq JVal := ⟨beq⟩

instance : LawfulBEq JVal where
  eq_of_beq h := (beq_iff_eq _ _).mp h
  rfl := (beq_iff_eq _ _).mpr rfl

instance : DecidableEq JVal := fun a b =>
  decidable_of_iff (beq a b = true) (beq_iff_eq a b)

/-- Python `d.get(k)`: `some v` when the key is present (its value may be
`JVal.null`), `none` when absent.  Only meaningful on `obj`; callers check
for the non-dict (`AttributeError`) case themselves. -/
def jget (v : JVal) (k : String) : Option JVal :=
  match v with
  | .obj l => (l.find? (fun p => p.1 == k)).map (·.2)
  | _ => none

/-- Python `d.get(k, default)`: the stored value when the key is present
(even when that value is `null`), otherwise the default. -/
def jgetOr (v : JVal) (k : String) (d : JVal) : JVal :=
  (jget v k).getD d

/-- Python truthiness of a JSON value: `None`, `""`, `[]` and `{}` are
falsy, everything else truthy. -/
def jtruthy : JVal → Bool
  | .null => false
  | .str s => !s.isEmpty
  | .arr l => !l.isEmpty
  | .obj l => !l.isEmpty

/-- Truthiness of the result of a `.get` (an absent key behaves like `None`). -/
def jtruthyO : Option JVal → Bool
  | none => false
  | some v => jtruthy v

/-- Python `d.pop(k)`: `some (value, d-without-k)` when `d` is a dict that
has the key, `none` when the key is missing (`KeyError`) or `d` is not a
dict (`AttributeError`). -/
def jpop (v : JVal) (k : String) : Option (JVal × JVal) :=
  match v with
  | .obj l =>
    match l.find? (fun p => p.1 == k) with
    | some p => some (p.2, .obj (l.eraseP (fun q => q.1 == k)))
    | none => none
  | _ => none

mutual

/-- Python `repr` of a parsed-JSON value (single-quoted strings, `None` for
null), used by `str()` on non-string values inside f-strings and joins. -/
def pyRepr : JVal → String
  | .null => "None"
  | .str s => "\x27" ++ s ++ "\x27"
  | .arr l => "[" ++ ", ".intercalate (pyReprList l) ++ "]"
  | .obj l => "\x7b" ++ ", ".intercalate (pyReprObj l) ++ "\x7d"

def pyReprList : List JVal → List String
  | [] => []
  | v :: rest => pyRepr v :: pyReprList rest

def pyReprObj : List (String × JVal) → List String
  | [] => []
  | (k, v) :: rest => ("\x27" ++ k ++ "\x27: " ++ pyRepr v) :: pyReprObj rest

end

/-- Python `str(val)` for a parsed-JSON value: a string renders as itself,
anything else as its `repr`. -/
def pyStr : JVal → String
  | .str s => s
  | v => pyRepr v

/-- Python `sep.join(str(val) for val in v)` for a truthy `v`: iterating a
list yields its elements, iterating a string yields its one-character
substrings, iterating a dict yields its keys.  (`None` is never iterated
here because every call site guards `v` by truthiness first.) -/
def pyJoin (sep : String) : JVal → String
  | .arr l => sep.intercalate (l.map pyStr)
  | .str s => sep.intercalate (s.toList.map (fun c => String.mk [c]))
  | .obj l => sep.intercalate (l.map (·.1))
  | .null => ""

end JVal

/-! ## `frappe_whatsapp/utils/providers.py` -/

/-- `StandardMessageResponse` (providers.py lines 8-13).  Field defaults
mirror the Python constructor: `message_id=None`, `status="sent"`,
`raw_response=None`, `error_message=None`.  `message_id` and
`error_message` hold whatever JSON value the extraction produced (`none`
models Python `None`). -/
structure StandardMessageResponse where
  message_id : Option JVal := none
  status : String := "sent"
  raw_response : Option JVal := none
  error_message : Option JVal := none
  deriving DecidableEq

/-- Outcome of one outbound HTTP call (`make_post_request` / `make_request`).
On failure, `excMsg` is `str(e)` for the raised exception and
`integrationRequest` is the parsed `frappe.flags.integration_request.json()`
body when that flag is set, truthy and parseable, else `none` (the code's
`hasattr`/truthiness guard and its inner `except (JSONDecodeError,
AttributeError): pass`). -/
inductive HttpOutcome where
  | success (resp : JVal)
  | failure (excMsg : String) (integrationRequest : Option JVal)

/-- Result of an adapter `send`:
* `ok` — a `StandardMessageResponse` was returned to the caller;
* `thrown` — `_log_error_and_throw` ran: a WhatsApp Notification Log entry
  holding `logged` was inserted and `frappe.throw(errorMessage, errorTitle)`
  raised (providers.py lines 33-40), so the `return` statement after the
  call is unreachable;
* `settingsError` — a direct `frappe.throw(msg)` on missing configuration;
* `pyError` — an uncaught Python exception outside any `try`. -/
inductive SendResult where
  | ok (r : StandardMessageResponse)
  | thrown (errorMessage errorTitle : JVal) (logged : JVal)
  | settingsError (msg : String)
  | pyError (msg : String)
  deriving DecidableEq

namespace MetaProvider

/-- The `except Exception` block of `MetaProvider.send` (providers.py lines
58-69): computes `(error_message, error_title, error_response)` from the
exception string and the parsed integration-request body.  `res.get` on a
non-dict `error` value raises `AttributeError`, which the inner `except`
swallows after `error_response` was already assigned. -/
def sendExceptInfo (excMsg : String) (env : Option JVal) : JVal × JVal × JVal :=
  match env with
  | none => (.str excMsg, .str "Error", .obj [])
  | some er =>
    match er with
    | .obj _ =>
      let res := er.jgetOr "error" (.obj [])
      match res with
      | .obj _ =>
        (res.jgetOr "Error" (res.jgetOr "message" (.str excMsg)),
         res.jgetOr "error_user_title" (.str "Error"), er)
      | _ => (.str excMsg, .str "Error", er)
    | _ => (.str excMsg, .str "Error", er)

/-- `MetaProvider.send` (providers.py lines 44-71).  `data` is the
caller-supplied request dict; the method only serializes it
(`json.dumps(data)`), so it is returned unchanged as the first component.
On success the message id is `raw_response.get("messages", [{}])[0].get("id")`
(a non-list `messages` value, an empty list, or a non-dict element raises
inside the `try`, landing in the `except` block with no integration
request, since `frappe` sets that flag only when the request itself
failed).  On failure `_log_error_and_throw` raises, making the final
`return StandardMessageResponse(status="failed", ...)` unreachable. -/
def send (data : JVal) (o : HttpOutcome) : JVal × SendResult :=
  match o with
  | .success resp =>
    match resp.jgetOr "messages" (.arr [.obj []]) with
    | .arr (first :: _) =>
      match first with
      | .obj _ =>
        (data, .ok { message_id := first.jget "id", status := "sent",
                     raw_response := some resp })
      | _ =>
        let (m, t, er) := sendExceptInfo "AttributeError" none
        (data, .thrown m t er)
    | _ =>
      let (m, t, er) := sendExceptInfo "IndexError: list index out of range" none
      (data, .thrown m t er)
  | .failure excMsg env =>
    let (m, t, er) := sendExceptInfo excMsg env
    (data, .thrown m t er)

end MetaProvider

namespace ExotelProvider

/-- The `except Exception` block of `ExotelProvider.send` (providers.py
lines 180-188): `error_message = error_response.get("message",
error_message)`, no title extraction. -/
def sendExceptInfo (excMsg : String) (env : Option JVal) : JVal × JVal :=
  match env with
  | none => (.str excMsg, .obj [])
  | some er =>
    match er with
    | .obj _ => (er.jgetOr "message" (.str excMsg), er)
    | _ => (.str excMsg, er)

/-- The message-id extraction of `ExotelProvider.send` (providers.py line
178): `raw_response.get("response", {}).get("whatsapp", {}).get("messages",
[{}])[0].get("data", {}).get("sid")`.  `.error` marks any step that raises
(an `AttributeError` from `.get` on a non-dict, an `IndexError`/`KeyError`/
`TypeError` from `[0]` on a value without a first element); such an
exception is caught by the surrounding `except` block. -/
def extractSid (resp : JVal) : Except String (Option JVal) := do
  let r1 ← match resp with
    | .obj _ => pure (resp.jgetOr "response" (.obj []))
    | _ => throw "AttributeError"
  let r2 ← match r1 with
    | .obj _ => pure (r1.jgetOr "whatsapp" (.obj []))
    | _ => throw "AttributeError"
  let msgs ← match r2 with
    | .obj _ => pure (r2.jgetOr "messages" (.arr [.obj []]))
    | _ => throw "AttributeError"
  let first ← match msgs with
    | .arr (x :: _) => pure x
    | _ => throw "IndexError: list index out of range"
  let d ← match first with
    | .obj _ => pure (first.jgetOr "data" (.obj []))
    | _ => throw "AttributeError"
  match d with
  | .obj _ => pure (d.jget "sid")
  | _ => throw "AttributeError"

/-- One run of `ExotelProvider.send` (providers.py lines 145-190):
the caller-supplied request dict after the call (Python mutates it in
place via `data.pop("to")`), the `whatsapp.messages[0]` payload actually
posted upstream (`none` when execution raised before building it), and the
result. -/
structure SendRun where
  dataAfter : JVal
  payload : Option JVal
  result : SendResult
  deriving DecidableEq

/-- `ExotelProvider.send` (providers.py lines 145-190).  `fromNumber` and
`statusCallbackUrl` model `settings.get("from_number")` /
`settings.get("status_callback_url")`.  A falsy `from_number` is a direct
`frappe.throw` before anything else; `data.pop("to")` mutates the
caller-supplied dict (a missing key is an uncaught `KeyError`, a non-dict
an uncaught `AttributeError`); on upstream failure `_log_error_and_throw`
raises, making the final `return StandardMessageResponse(status="failed",
...)` unreachable. -/
def send (fromNumber : Option JVal) (statusCallbackUrl : Option JVal)
    (data : JVal) (o : HttpOutcome) : SendRun :=
  if !(JVal.jtruthyO fromNumber) then
    { dataAfter := data, payload := none,
      result := .settingsError
        "Exotel 'From' number is not set in WhatsApp Settings. Cannot send message." }
  else
    match data.jpop "to" with
    | none =>
      { dataAfter := data, payload := none,
        result := .pyError "KeyError or AttributeError: to" }
    | some (toNumber, data') =>
      let content := data'
      let basePayload : JVal := .obj [("whatsapp", .obj [("messages",
        .arr [.obj [("from", fromNumber.getD .null), ("to", toNumber),
                    ("content", content)]])])]
      let exotelPayload : JVal :=
        if JVal.jtruthyO statusCallbackUrl then
          match basePayload with
          | .obj l => .obj (l ++ [("status_callback", statusCallbackUrl.getD .null)])
          | _ => basePayload
        else basePayload
      match o with
      | .success resp =>
        match extractSid resp with
        | .ok sid =>
          { dataAfter := data', payload := some exotelPayload,
            result := .ok { message_id := sid, status := "sent",
                            raw_response := some resp } }
        | .error e =>
          let (m, er) := sendExceptInfo e none
          { dataAfter := data', payload := some exotelPayload,
            result := .thrown m (.str "Error") er }
      | .failure excMsg env =>
        let (m, er) := sendExceptInfo excMsg env
        { dataAfter := data', payload := some exotelPayload,
          result := .thrown m (.str "Error") er }

end ExotelProvider

/-- One normalized component dict as built by `fetch_templates`
(providers.py lines 105-124): `"type"` is always set (to
`component.get("type")`, possibly `None`); every other key is present only
when the corresponding branch assigned it. -/
structure StdComponent where
  type : Option JVal := none
  format : Option JVal := none
  text : Option JVal := none
  example_text : Option JVal := none
  example_handle : Option JVal := none
  example_body_text : Option JVal := none
  buttons : Option JVal := none
  deriving DecidableEq

/-- One normalized template dict as built by `fetch_templates`
(providers.py lines 95-102 / 215-222). -/
structure NormalizedTemplate where
  name : Option JVal := none
  id : Option JVal := none
  status : Option JVal := none
  language_code : Option JVal := none
  category : Option JVal := none
  components : List StdComponent := []
  deriving DecidableEq

/-- `component.get("example", {}).get(k)` (providers.py lines 110, 113,
117): `.error` when the stored `example` value is not a dict (its `.get`
raises `AttributeError`, caught by the surrounding `except`). -/
def exampleGet (c : JVal) (k : String) : Except String (Option JVal) :=
  match c.jget "example" with
  | none => .ok none
  | some ex =>
    match ex with
    | .obj _ => .ok (ex.jget k)
    | _ => .error "AttributeError"

/-- The per-component normalization loop body shared verbatim by
`MetaProvider.fetch_templates` (providers.py lines 105-124) and
`ExotelProvider.fetch_templates` (lines 225-244).  A non-dict component or
one without a `"type"` key raises (`AttributeError` from `.get` /
`KeyError` from `component["type"]`), caught by the surrounding `except`;
a component whose type matches none of the four recognized kinds falls
through every branch and is appended carrying only its `"type"` entry. -/
def normalizeComponent (c : JVal) : Except String StdComponent :=
  match c with
  | .obj _ =>
    let sc : StdComponent := { type := c.jget "type" }
    match c.jget "type" with
    | none => .error "KeyError: type"
    | some tv =>
      if tv == JVal.str "HEADER" then
        let sc := { sc with format := c.jget "format" }
        if c.jget "format" == some (JVal.str "TEXT") then do
          let sc := { sc with text := c.jget "text" }
          let ht ← exampleGet c "header_text"
          if JVal.jtruthyO ht then
            pure { sc with example_text := ht }
          else
            pure sc
        else if c.jget "format" == some (JVal.str "IMAGE")
            || c.jget "format" == some (JVal.str "VIDEO")
            || c.jget "format" == some (JVal.str "DOCUMENT") then do
          let hh ← exampleGet c "header_handle"
          if JVal.jtruthyO hh then
            pure { sc with example_handle := hh }
          else
            pure sc
        else
          .ok sc
      else if tv == JVal.str "BODY" then do
        let sc := { sc with text := c.jget "text" }
        let bt ← exampleGet c "body_text"
        if JVal.jtruthyO bt then
          pure { sc with example_body_text := bt }
        else
          pure sc
      else if tv == JVal.str "FOOTER" then
        .ok { sc with text := c.jget "text" }
      else if tv == JVal.str "BUTTONS" then
        .ok { sc with buttons := c.jget "buttons" }
      else
        .ok sc
  | _ => .error "AttributeError"

/-- The `for component in tpl.get("components", [])` loop: each component
is normalized and appended in order; the first raising component aborts
the whole fetch. -/
def normalizeComponents : List JVal → Except String (List StdComponent)
  | [] => .ok []
  | c :: rest => do
    let sc ← normalizeComponent c
    let scs ← normalizeComponents rest
    pure (sc :: scs)

/-- Python `for x in v` where `v` came from `.get(key, [])`: a list yields
its elements; an empty string or empty dict yields no iterations; a
non-empty string or dict would feed strings (characters / keys) to
`component.get`, raising `AttributeError`; `None` raises `TypeError`. -/
def iterElems : Option JVal → Except String (List JVal)
  | none => .ok []
  | some (.arr l) => .ok l
  | some (.str s) => if s.isEmpty then .ok [] else .error "AttributeError"
  | some (.obj l) => if l.isEmpty then .ok [] else .error "AttributeError"
  | some .null => .error "TypeError"

/-- The per-template normalization of `MetaProvider.fetch_templates`
(providers.py lines 94-125): `idKey` is `"id"` for Meta and
`"template_id"` for Exotel (line 217), the only difference between the two
providers' loops. -/
def normalizeTemplate (idKey : String) (tpl : JVal) : Except String NormalizedTemplate :=
  match tpl with
  | .obj _ => do
    let comps ← normalizeComponents (← iterElems (some (tpl.jgetOr "components" (.arr []))))
    pure { name := tpl.jget "name", id := tpl.jget idKey,
           status := tpl.jget "status", language_code := tpl.jget "language",
           category := tpl.jget "category", components := comps }
  | _ => .error "AttributeError"

def normalizeTemplates (idKey : String) : List JVal → Except String (List NormalizedTemplate)
  | [] => .ok []
  | t :: rest => do
    let nt ← normalizeTemplate idKey t
    let nts ← normalizeTemplates idKey rest
    pure (nt :: nts)

/-- Result of an adapter `fetch_templates`: a returned list of normalized
templates, a `_log_error_and_throw` (which raises, so the `return []`
after it — Exotel's even carries the comment "Return empty list on failure
after logging" — is unreachable), or a direct configuration
`frappe.throw`. -/
inductive FetchResult where
  | ok (templates : List NormalizedTemplate)
  | thrown (errorMessage errorTitle : JVal) (logged : JVal)
  | settingsError (msg : String)
  deriving DecidableEq

namespace MetaProvider

/-- The `except Exception` block of `MetaProvider.fetch_templates`
(providers.py lines 128-139): like the send variant but reading
`error_user_msg` before `message`. -/
def fetchExceptInfo (excMsg : String) (env : Option JVal) : JVal × JVal × JVal :=
  match env with
  | none => (.str excMsg, .str "Error", .obj [])
  | some er =>
    match er with
    | .obj _ =>
      let res := er.jgetOr "error" (.obj [])
      match res with
      | .obj _ =>
        (res.jgetOr "error_user_msg" (res.jgetOr "message" (.str excMsg)),
         res.jgetOr "error_user_title" (.str "Error"), er)
      | _ => (.str excMsg, .str "Error", er)
    | _ => (.str excMsg, .str "Error", er)

/-- `MetaProvider.fetch_templates` (providers.py lines 74-141).
`businessId` models `settings.business_id` (a falsy value is a direct
`frappe.throw` before the request).  On upstream failure, or on a
normalization error inside the `try` (in which case no integration request
was recorded for the successful HTTP call), `_log_error_and_throw` logs
and raises; the trailing `return []` is unreachable. -/
def fetch_templates (businessId : Option JVal) (o : HttpOutcome) : FetchResult :=
  if !(JVal.jtruthyO businessId) then
    .settingsError "Meta Business ID is not set in WhatsApp Settings. Cannot fetch templates."
  else
    match o with
    | .success resp =>
      match (do normalizeTemplates "id" (← iterElems (some (resp.jgetOr "data" (.arr []))))) with
      | .ok nts => .ok nts
      | .error e =>
        let (m, t, er) := fetchExceptInfo e none
        .thrown m t er
    | .failure excMsg env =>
      let (m, t, er) := fetchExceptInfo excMsg env
      .thrown m t er

end MetaProvider

namespace ExotelProvider

/-- `ExotelProvider.fetch_templates` (providers.py lines 192-258).
`wabaId` models `settings.get("waba_id")`.  The normalization loop is the
Meta one with `tpl.get("template_id")` as the provider id; the `except`
block is Exotel's (message from the envelope's top-level `"message"`,
default title). -/
def fetch_templates (wabaId : Option JVal) (o : HttpOutcome) : FetchResult :=
  if !(JVal.jtruthyO wabaId) then
    .settingsError "Exotel WhatsApp Business Account ID (WABA ID) is not set in WhatsApp Settings. Cannot fetch templates."
  else
    match o with
    | .success resp =>
      match (do normalizeTemplates "template_id" (← iterElems (some (resp.jgetOr "data" (.arr []))))) with
      | .ok nts => .ok nts
      | .error e =>
        let (m, er) := sendExceptInfo e none
        .thrown m (.str "Error") er
    | .failure excMsg env =>
      let (m, er) := sendExceptInfo excMsg env
      .thrown m (.str "Error") er

end ExotelProvider

/-! ## `frappe_whatsapp/utils/webhook.py` -/

namespace Webhook

/-- Outcome of the first phase of `MetaProvider.get_media_asset`
(webhook.py lines 112-132): the metadata GET either raises a
`requests.exceptions.RequestException`, raises `json.JSONDecodeError`
while parsing, or yields the parsed metadata JSON. -/
inductive MetaPhaseOutcome where
  | reqError (excMsg : String)
  | jsonError (excMsg : String)
  | ok (mediaData : JVal)

/-- Outcome of the second phase (webhook.py lines 150-161): the binary
download either raises a `RequestException` or yields the content bytes
(modelled opaquely as a string). -/
inductive DownloadOutcome where
  | dlError (excMsg : String)
  | ok (fileData : String)

/-- Result of a `get_media_asset` call:
* `ok fileData mimeType fileExtension` — the returned tuple;
* `thrown` — `_log_error_and_throw` logged `logged` and raised;
* `pyError` — an uncaught Python exception outside any `try`;
* `noneReturned` — the method body ran off its end, returning `None`. -/
inductive MediaResult where
  | ok (fileData : String) (mimeType : String) (fileExtension : String)
  | thrown (errorMessage errorTitle : String) (logged : JVal)
  | pyError (msg : String)
  | noneReturned
  deriving DecidableEq

/-- `mime_type.split('/')[-1]` (webhook.py line 147). -/
def lastSlashPart (s : String) : String :=
  (s.splitOn "/").getLastD ""

namespace MetaProvider

/-- `MetaProvider.get_media_asset` (webhook.py lines 106-161).  After a
successful metadata phase: `media_data.get` on a non-dict body is an
uncaught `AttributeError`; a falsy `url` or falsy `mime_type` is a logged
throw ("Missing media URL or MIME type"); `'/' in mime_type` on a truthy
non-string is an uncaught `TypeError`; the extension is the part after the
last `'/'` when the mime type contains one, else `"bin"`; then the
download phase returns the tuple or raises into a logged throw. -/
def get_media_asset (mediaId : String) (p1 : MetaPhaseOutcome)
    (p2 : DownloadOutcome) : MediaResult :=
  match p1 with
  | .reqError e =>
    .thrown (s!"Error fetching media metadata for ID {mediaId}: {e}")
      "WhatsApp Media Metadata Error" (.obj [])
  | .jsonError e =>
    .thrown (s!"Error decoding JSON for media metadata {mediaId}: {e}")
      "WhatsApp Media Metadata Error" (.obj [])
  | .ok mediaData =>
    match mediaData with
    | .obj _ =>
      let mediaUrl := mediaData.jget "url"
      let mimeType := mediaData.jget "mime_type"
      if !(JVal.jtruthyO mediaUrl) || !(JVal.jtruthyO mimeType) then
        .thrown (s!"Missing media URL or MIME type for ID {mediaId}.")
          "WhatsApp Media Data Missing" mediaData
      else
        match mimeType with
        | some (.str ms) =>
          let fileExtension := if ms.contains '/' then lastSlashPart ms else "bin"
          match p2 with
          | .ok fileData => .ok fileData ms fileExtension
          | .dlError e =>
            .thrown (s!"Error downloading media from {JVal.pyStr (mediaUrl.getD .null)}: {e}")
              "WhatsApp Media Download Error" (.obj [])
        | _ => .pyError "TypeError: argument of type is not iterable"
    | _ => .pyError "AttributeError"

end MetaProvider

namespace ExotelProvider

/-- `ExotelProvider.get_media_asset` (webhook.py lines 196-218).  The
method body consists solely of the docstring and comments — the
`frappe.throw` for the unsupported operation (line 209) is commented out —
so execution falls off the end and Python returns `None`, despite the base
class declaring `-> tuple[bytes, str, str]` and "Raises an exception on
failure". -/
def get_media_asset (_mediaId : String) : MediaResult :=
  .noneReturned

end ExotelProvider

end Webhook

/-! ## `frappe_whatsapp/frappe_whatsapp/doctype/whatsapp_templates/whatsapp_templates.py` -/

namespace WhatsAppTemplates

/-- The fields of a local `WhatsApp Templates` record that `fetch()`
(whatsapp_templates.py lines 218-283) reads or writes.  `sample_values`
and `sample` receive joined strings; the other fields receive raw JSON
values (`none` models Python `None`). -/
structure Doc where
  template_name : Option JVal := none
  actual_name : Option JVal := none
  status : Option JVal := none
  language_code : Option JVal := none
  category : Option JVal := none
  id : Option JVal := none
  header_type : Option JVal := none
  header : Option JVal := none
  footer : Option JVal := none
  template : Option JVal := none
  sample_values : Option String := none
  sample : Option String := none
  deriving DecidableEq

/-- The scalar assignments and the component-field reset of `fetch()`
(whatsapp_templates.py lines 231-242): status/language_code/category/id
are copied from the normalized template, and every component-derived field
(`header_type`, `header`, `footer`, `template`, `sample_values`, `sample`)
is reset to `None` "to ensure consistency if a component is removed
remotely". -/
def assignAndReset (d : Doc) (t : NormalizedTemplate) : Doc :=
  { d with
    status := t.status, language_code := t.language_code,
    category := t.category, id := t.id,
    header_type := none, header := none, footer := none, template := none,
    sample_values := none, sample := none }

/-- The per-component branch of `fetch()` (whatsapp_templates.py lines
245-275).  The only raising path is a BODY component whose truthy
`example_body_text` is a non-empty dict (`component["example_body_text"][0]`
is then a `KeyError`, uncaught inside `fetch`); a truthy string indexes its
first character, a truthy list its first element.  Component types other
than HEADER/FOOTER/BODY (BUTTONS included, lines 273-275 being a comment)
change nothing. -/
def applyComponent (d : Doc) (c : StdComponent) : Except String Doc :=
  if c.type == some (JVal.str "HEADER") then
    let d := { d with header_type := c.format }
    if c.format == some (JVal.str "TEXT") then
      let d := { d with header := c.text }
      if JVal.jtruthyO c.example_text then
        .ok { d with sample := some (JVal.pyJoin ", " (c.example_text.getD .null)) }
      else
        .ok d
    else
      .ok d
  else if c.type == some (JVal.str "FOOTER") then
    .ok { d with footer := c.text }
  else if c.type == some (JVal.str "BODY") then
    let d := { d with template := c.text }
    if JVal.jtruthyO c.example_body_text then
      match c.example_body_text.getD .null with
      | .arr (x :: _) =>
        if JVal.jtruthy x then
          .ok { d with sample_values := some (JVal.pyJoin "," x) }
        else
          .ok { d with sample_values := none }
      | .str s =>
        match s.toList with
        | ch :: _ => .ok { d with sample_values := some (JVal.pyJoin "," (.str (String.mk [ch]))) }
        | [] => .error "IndexError: string index out of range"
      | .arr [] => .error "IndexError: list index out of range"
      | .obj _ => .error "KeyError: 0"
      | .null => .error "TypeError"
    else
      .ok { d with sample_values := none }
  else
    .ok d

/-- The `for component in template_data.get("components", [])` loop of
`fetch()` (whatsapp_templates.py lines 245-275), in order; the first
raising component aborts the whole `fetch`. -/
def applyComponents (d : Doc) : List StdComponent → Except String Doc
  | [] => .ok d
  | c :: rest => do
    let d' ← applyComponent d c
    applyComponents d' rest

/-- Populating one local record from one normalized template (whatsapp
_templates.py lines 231-275): scalar assignment, component reset, then the
component loop. -/
def applyTemplate (d : Doc) (t : NormalizedTemplate) : Except String Doc :=
  applyComponents (assignAndReset d t) t.components

/-- The local record store, keyed by `actual_name`, in insertion order. -/
abbrev Store := List (JVal × Doc)

/-- `frappe.db.exists` / `frappe.get_doc` by `{"actual_name": key}`:
first record with the key. -/
def storeGet (s : Store) (k : JVal) : Option Doc :=
  (s.find? (fun p => p.1 == k)).map (·.2)

/-- `doc.db_update()`: update the (first) record with the key in place. -/
def storePut : Store → JVal → Doc → Store
  | [], _, _ => []
  | (k', d') :: rest, k, v =>
    if k' == k then (k', v) :: rest else (k', d') :: storePut rest k v

/-- The store key of a normalized template: `template_data["name"]`
(whatsapp_templates.py lines 221-222), whose value is `tpl.get("name")`
from normalization — possibly `None`. -/
def tKey (t : NormalizedTemplate) : JVal :=
  t.name.getD .null

/-- `frappe.new_doc` plus lines 226-227: a fresh record with
`template_name` and `actual_name` set to the template's name. -/
def newDoc (k : JVal) : Doc :=
  { template_name := some k, actual_name := some k }

/-- One iteration of the `fetch()` loop (whatsapp_templates.py lines
218-283): look up the record by name, create it when absent, populate it,
then `db_update`/`db_insert` and commit. -/
def syncOne (s : Store) (t : NormalizedTemplate) : Except String Store :=
  match storeGet s (tKey t) with
  | some d => (applyTemplate d t).map (fun v => storePut s (tKey t) v)
  | none => (applyTemplate (newDoc (tKey t)) t).map (fun v => s ++ [(tKey t, v)])

/-- The whole `fetch()` pass (whatsapp_templates.py lines 204-285) over an
already-normalized template list: each template's upsert is committed
independently, so an uncaught exception keeps the templates already
committed and aborts the rest (the second component reports it).  An empty
template list changes nothing (lines 214-216). -/
def fetch : Store → List NormalizedTemplate → Store × Option String
  | s, [] => (s, none)
  | s, t :: rest =>
    match syncOne s t with
    | .ok s' => fetch s' rest
    | .error e => (s, some e)

end WhatsAppTemplates

/-! ## Claims -/

/-- **C1.** The claim says `send` never raises for an ordinary upstream
rejection and instead returns a `Failed` result carrying the envelope's
message.  In the code the failure branch calls `_log_error_and_throw`,
which inserts the log entry and then `frappe.throw`s — it raises — so the
`return StandardMessageResponse(status="failed", ...)` after it
(providers.py lines 71 and 190) is unreachable dead code.  At the claim's
own Meta 404 envelope the call ends in a raise whose message is the
envelope's `"Unsupported post request."` (and Exotel's failure branch
likewise raises with the envelope's top-level `message`), rather than
returning a `Failed` result. -/
theorem c1_send_raises_on_upstream_rejection :
    MetaProvider.send (JVal.obj [("to", JVal.str "911"), ("type", JVal.str "template")])
      (.failure "404 Client Error: Not Found for url"
        (some (JVal.obj [("error", JVal.obj [("message", JVal.str "Unsupported post request."),
          ("error_user_title", JVal.str "Error")])]))) =
      (JVal.obj [("to", JVal.str "911"), ("type", JVal.str "template")],
       SendResult.thrown (JVal.str "Unsupported post request.") (JVal.str "Error")
         (JVal.obj [("error", JVal.obj [("message", JVal.str "Unsupported post request."),
           ("error_user_title", JVal.str "Error")])]))
    ∧ (ExotelProvider.send (some (JVal.str "14620000000")) none
        (JVal.obj [("to", JVal.str "911"), ("type", JVal.str "template")])
        (.failure "400 Client Error: Bad Request"
          (some (JVal.obj [("message", JVal.str "invalid destination")])))).result =
      SendResult.thrown (JVal.str "invalid destination") (JVal.str "Error")
        (JVal.obj [("message", JVal.str "invalid destination")]) := by
  exact ⟨rfl, rfl⟩

/-- **C2.** The claim says `fetch_templates` returns an empty sequence on
upstream failure, logging rather than raising.  In the code the `except`
block ends in `_log_error_and_throw`, which raises, so the trailing
`return []` (providers.py lines 141 and 258 — the latter even commented
"Return empty list on failure after logging") is unreachable: on upstream
failure both providers' fetches raise instead of returning `[]`. -/
theorem c2_fetch_templates_raises_on_upstream_failure :
    MetaProvider.fetch_templates (some (JVal.str "BID1"))
        (.failure "ConnectionError: connection refused" none) =
      .thrown (JVal.str "ConnectionError: connection refused") (JVal.str "Error") (JVal.obj [])
    ∧ ExotelProvider.fetch_templates (some (JVal.str "WABA1"))
        (.failure "ReadTimeout: timed out" none) =
      .thrown (JVal.str "ReadTimeout: timed out") (JVal.str "Error") (JVal.obj []) := by
  exact ⟨rfl, rfl⟩

/-- **C5.** Normalizing the Meta raw template
`{"name":"order_update","language":"en_US","category":"UTILITY",
"components":[{"type":"BODY","text":"Hi {{1}}","example":{"body_text":[["Sam"]]}}]}`
yields one normalized template with `language_code = "en_US"` (the raw
`language` field) and exactly one BODY component carrying
`example_body_text = [["Sam"]]`; feeding it to the sync pass's record
population takes only the first inner sequence, producing the sample
values `"Sam"` (the canonical `exampleValues = ["Sam"]`). -/
theorem c5_meta_normalization_example :
    MetaProvider.fetch_templates (some (JVal.str "BID1"))
      (.success (JVal.obj [("data", JVal.arr [JVal.obj [
        ("name", JVal.str "order_update"), ("language", JVal.str "en_US"),
        ("category", JVal.str "UTILITY"),
        ("components", JVal.arr [JVal.obj [("type", JVal.str "BODY"),
          ("text", JVal.str "Hi \x7b\x7b1\x7d\x7d"),
          ("example", JVal.obj [("body_text", JVal.arr [JVal.arr [JVal.str "Sam"]])])]])]])])) =
      .ok [{ name := some (JVal.str "order_update"),
             language_code := some (JVal.str "en_US"),
             category := some (JVal.str "UTILITY"),
             components := [{ type := some (JVal.str "BODY"),
                              text := some (JVal.str "Hi \x7b\x7b1\x7d\x7d"),
                              example_body_text := some (JVal.arr [JVal.arr [JVal.str "Sam"]]) }] }]
    ∧ WhatsAppTemplates.applyTemplate {}
        { name := some (JVal.str "order_update"),
          language_code := some (JVal.str "en_US"),
          category := some (JVal.str "UTILITY"),
          components := [{ type := some (JVal.str "BODY"),
                           text := some (JVal.str "Hi \x7b\x7b1\x7d\x7d"),
                           example_body_text := some (JVal.arr [JVal.arr [JVal.str "Sam"]]) }] } =
      .ok { language_code := some (JVal.str "en_US"),
            category := some (JVal.str "UTILITY"),
            template := some (JVal.str "Hi \x7b\x7b1\x7d\x7d"),
            sample_values := some "Sam" } := by
  exact ⟨rfl, rfl⟩

/-- **C6.** The claim says a provider without direct media support signals
a clear "unsupported operation" error and never silently returns absent
data.  `ExotelProvider.get_media_asset` (webhook.py lines 196-218) has a
body consisting solely of its docstring and comments — the unsupported-
operation `frappe.throw` is commented out — so the call silently returns
`None`, contradicting the base class's declared `tuple[bytes, str, str]`
return contract. -/
theorem c6_exotel_media_returns_none :
    Webhook.ExotelProvider.get_media_asset "MEDIA123" = .noneReturned := by
  exact rfl

/-- **C7 (counterexample).** The claim says components with an
unrecognized type are dropped from the normalized component sequence.  A
template whose only component has type `"CAROUSEL"` normalizes to a
template whose component sequence still has that component (carrying only
its type), not to an empty sequence. -/
theorem c7_unrecognized_component_kept_counterexample :
    MetaProvider.fetch_templates (some (JVal.str "BID1"))
      (.success (JVal.obj [("data", JVal.arr [JVal.obj [("name", JVal.str "t1"),
        ("components", JVal.arr [JVal.obj [("type", JVal.str "CAROUSEL"),
          ("text", JVal.str "x")]])]])])) =
      .ok [{ name := some (JVal.str "t1"),
             components := [{ type := some (JVal.str "CAROUSEL") }] }] := by
  exact rfl

/-- **C7 (amended).** A component whose `"type"` is present but matches
none of HEADER/BODY/FOOTER/BUTTONS is not dropped and does not fail the
fetch: it is kept in the normalized sequence as a component carrying only
its type (every other field is discarded). -/
theorem c7_unrecognized_component_passthrough (l : List (String × JVal)) (tv : JVal)
    (hty : JVal.jget (.obj l) "type" = some tv)
    (h1 : tv ≠ JVal.str "HEADER") (h2 : tv ≠ JVal.str "BODY")
    (h3 : tv ≠ JVal.str "FOOTER") (h4 : tv ≠ JVal.str "BUTTONS") :
    normalizeComponent (.obj l) = .ok { type := some tv } := by
  simp only [normalizeComponent, hty]
  simp [h1, h2, h3, h4]

/-- Witness for C7: a concrete CAROUSEL component is passed through. -/
theorem c7_witness :
    normalizeComponent (.obj [("type", JVal.str "CAROUSEL"), ("text", JVal.str "x")]) =
      .ok { type := some (JVal.str "CAROUSEL") } :=
  c7_unrecognized_component_passthrough [("type", JVal.str "CAROUSEL"), ("text", JVal.str "x")]
    (JVal.str "CAROUSEL") rfl (by decide) (by decide) (by decide) (by decide)

/-- **C8 (counterexample).** The claim says a media fetch with `mimeType`
absent yields `fileExtension = "bin"`.  With the metadata lacking
`mime_type` the code instead hits the `if not media_url or not mime_type`
guard (webhook.py line 137) and raises a logged "Missing media URL or MIME
type" error; no asset (and no extension) is ever produced. -/
theorem c8_absent_mime_raises_counterexample :
    Webhook.MetaProvider.get_media_asset "M1"
      (.ok (JVal.obj [("url", JVal.str "https://lookaside.example/m/1")])) (.ok "BYTES") =
      .thrown "Missing media URL or MIME type for ID M1." "WhatsApp Media Data Missing"
        (JVal.obj [("url", JVal.str "https://lookaside.example/m/1")]) := by
  exact rfl

/-- **C8 (amended).** When both `url` and `mime_type` are present and
non-empty and the download succeeds, the returned `fileExtension` is the
substring after the last `'/'` of the mime type when it contains one, else
`"bin"`; when `mime_type` is absent the fetch raises the "Missing media
URL or MIME type" error instead of returning an asset, whatever the
download phase would have produced. -/
theorem c8_file_extension_rule (mediaId url mime fileData : String)
    (p2 : Webhook.DownloadOutcome) (hurl : url ≠ "") (hmime : mime ≠ "") :
    Webhook.MetaProvider.get_media_asset mediaId
        (.ok (JVal.obj [("url", JVal.str url), ("mime_type", JVal.str mime)]))
        (.ok fileData) =
      .ok fileData mime (if mime.contains '/' then Webhook.lastSlashPart mime else "bin")
    ∧ Webhook.MetaProvider.get_media_asset mediaId
        (.ok (JVal.obj [("url", JVal.str url)])) p2 =
      .thrown (s!"Missing media URL or MIME type for ID {mediaId}.")
        "WhatsApp Media Data Missing" (JVal.obj [("url", JVal.str url)]) := by
  constructor
  · simp [Webhook.MetaProvider.get_media_asset, JVal.jget, JVal.jtruthyO, JVal.jtruthy,
      String.isEmpty_iff, hurl, hmime]
  · simp [Webhook.MetaProvider.get_media_asset, JVal.jget, JVal.jtruthyO, JVal.jtruthy,
      String.isEmpty_iff, hurl]

/-- Witness for C8: a concrete media asset with mime type `image/jpeg`
gets extension `jpeg`, and the same metadata without a mime type raises. -/
theorem c8_witness :
    (Webhook.MetaProvider.get_media_asset "M1"
        (.ok (JVal.obj [("url", JVal.str "https://x"), ("mime_type", JVal.str "image/jpeg")]))
        (.ok "BYTES") =
      .ok "BYTES" "image/jpeg"
        (if ("image/jpeg").contains '/' then Webhook.lastSlashPart "image/jpeg" else "bin"))
    ∧ Webhook.MetaProvider.get_media_asset "M1"
        (.ok (JVal.obj [("url", JVal.str "https://x")])) (.ok "BYTES") =
      .thrown (s!"Missing media URL or MIME type for ID M1.")
        "WhatsApp Media Data Missing" (JVal.obj [("url", JVal.str "https://x")]) :=
  c8_file_extension_rule "M1" "https://x" "image/jpeg" "BYTES" (.ok "BYTES")
    (by decide) (by decide)

/-- **C9 (counterexample).** The claim says `messageId` is absent only
when the status is `Failed` (every Sent result carries an id).  A
successful upstream response that lacks the `messages[0].id` path — here
the empty JSON object — is returned as status `"sent"` with
`message_id = None`. -/
theorem c9_sent_without_message_id_counterexample :
    (MetaProvider.send (JVal.obj [("to", JVal.str "911")])
        (.success (JVal.obj []))).2 =
      SendResult.ok { message_id := none, status := "sent",
                      raw_response := some (JVal.obj []) } := by
  exact rfl

/-- **C9 (amended).** Every `StandardMessageResponse` actually returned by
either adapter's `send` has status `"sent"` (the failure branch raises
before its `return`), but its `message_id` may still be absent, namely
when the success envelope lacks an id at the provider's path. -/
theorem c9_returned_results_are_sent (data : JVal) (o o' : HttpOutcome)
    (fn sc : Option JVal) (r1 r2 : StandardMessageResponse)
    (h1 : (MetaProvider.send data o).2 = .ok r1)
    (h2 : (ExotelProvider.send fn sc data o').result = .ok r2) :
    r1.status = "sent" ∧ r2.status = "sent" := by
  constructor
  · unfold MetaProvider.send at h1
    cases o with
    | success resp =>
      simp only [] at h1
      split at h1
      · split at h1
        · simp at h1
          rw [← h1]
        · simp at h1
      · simp at h1
    | failure e env => simp at h1
  · unfold ExotelProvider.send at h2
    split at h2
    · simp at h2
    · split at h2
      · simp at h2
      · cases o' with
        | success resp =>
          simp only [] at h2
          split at h2
          · simp at h2
            rw [← h2]
          · simp at h2
        | failure e env => simp at h2

/-- Witness for C9: concrete empty-object success responses are returned
as sent by both adapters. -/
theorem c9_witness :
    ((MetaProvider.send (JVal.obj [("to", JVal.str "911")])
        (.success (JVal.obj []))).2 =
      SendResult.ok { message_id := none, status := "sent",
                      raw_response := some (JVal.obj []) })
    ∧ (({ message_id := none, status := "sent",
          raw_response := some (JVal.obj []) } : StandardMessageResponse).status = "sent"
       ∧ ({ message_id := none, status := "sent",
            raw_response := some (JVal.obj []) } : StandardMessageResponse).status = "sent") :=
  ⟨rfl, c9_returned_results_are_sent (JVal.obj [("to", JVal.str "911")])
    (.success (JVal.obj [])) (.success (JVal.obj []))
    (some (JVal.str "14620000000")) none _ _ rfl rfl⟩

/-- **C10 (counterexample).** The claim says `send` never mutates the
caller-supplied request (in particular never removes its `to` field).
`ExotelProvider.send` executes `data.pop("to")`: after the call the
caller's dict no longer contains the `to` entry. -/
theorem c10_exotel_send_mutates_request_counterexample :
    (ExotelProvider.send (some (JVal.str "14620000000")) none
        (JVal.obj [("to", JVal.str "911"), ("type", JVal.str "template")])
        (.success (JVal.obj []))).dataAfter =
      JVal.obj [("type", JVal.str "template")]
    ∧ JVal.obj [("type", JVal.str "template")] ≠
      JVal.obj [("to", JVal.str "911"), ("type", JVal.str "template")] := by
  exact ⟨rfl, by decide⟩

/-- **C10 (amended).** `MetaProvider.send` leaves the caller-supplied
request unchanged, but `ExotelProvider.send` (with a configured from
number and a request dict containing `to`) removes the `to` entry from the
caller's dict in place before nesting the remainder as the message
content. -/
theorem c10_request_mutation (o o' : HttpOutcome) (fn sc : Option JVal)
    (l : List (String × JVal)) (tov : JVal)
    (hto : JVal.jget (.obj l) "to" = some tov)
    (hfn : JVal.jtruthyO fn = true) :
    (MetaProvider.send (.obj l) o).1 = .obj l
    ∧ (ExotelProvider.send fn sc (.obj l) o').dataAfter =
      .obj (l.eraseP (fun q => q.1 == "to")) := by
  constructor
  · unfold MetaProvider.send
    cases o <;> simp only [] <;> repeat (first | rfl | split)
  · unfold ExotelProvider.send
    simp only [hfn, Bool.not_true, Bool.false_eq_true, if_false]
    have hp : JVal.jpop (.obj l) "to" =
        some (tov, .obj (l.eraseP (fun q => q.1 == "to"))) := by
      unfold JVal.jpop
      unfold JVal.jget at hto
      simp only []
      cases hf : l.find? (fun p => p.1 == "to") with
      | none => simp [hf] at hto
      | some p =>
        simp [hf] at hto
        simp [hto]
    rw [hp]
    cases o' <;> simp only [] <;> repeat (first | rfl | split)

/-- Witness for C10: on a concrete request `{"to": "911", "type":
"template"}` Meta's send hands back the dict unchanged while Exotel's
send strips the `to` entry. -/
theorem c10_witness :
    ((MetaProvider.send (.obj [("to", JVal.str "911"), ("type", JVal.str "template")])
        (.success (JVal.obj []))).1 =
      .obj [("to", JVal.str "911"), ("type", JVal.str "template")])
    ∧ (ExotelProvider.send (some (JVal.str "14620000000")) none
        (.obj [("to", JVal.str "911"), ("type", JVal.str "template")])
        (.success (JVal.obj []))).dataAfter =
      .obj ([("to", JVal.str "911"), ("type", JVal.str "template")].eraseP
        (fun q => q.1 == "to")) :=
  c10_request_mutation (.success (JVal.obj [])) (.success (JVal.obj []))
    (some (JVal.str "14620000000")) none
    [("to", JVal.str "911"), ("type", JVal.str "template")] (JVal.str "911")
    rfl rfl

namespace WhatsAppTemplates

/-- One component application never touches the record's identity fields,
and touches `footer` only when the component's type is FOOTER. -/
theorem applyComponent_preserves (d d1 : Doc) (c : StdComponent)
    (h : applyComponent d c = .ok d1) :
    d1.template_name = d.template_name ∧ d1.actual_name = d.actual_name ∧
    (c.type ≠ some (JVal.str "FOOTER") → d1.footer = d.footer) := by
  unfold applyComponent at h
  split_ifs at h with hH hT hE hF hB hBT
  · simp at h; rw [← h]; simp
  · simp at h; rw [← h]; simp
  · simp at h; rw [← h]; simp
  · simp at h; rw [← h]
    refine ⟨rfl, rfl, fun hc => absurd ?_ hc⟩
    exact eq_of_beq hF
  · split at h
    · split at h <;> (simp at h; rw [← h]; simp)
    · split at h
      · simp at h; rw [← h]; simp
      · simp at h
    · simp at h
    · simp at h
    · simp at h
  · simp at h; rw [← h]; simp
  · simp at h; rw [← h]; simp

/-- Running the component loop from a record whose `footer` is `None`
leaves `footer` at `None` when no component in the list has type FOOTER. -/
theorem applyComponents_footer_none (cs : List StdComponent) (d d' : Doc)
    (hd : d.footer = none)
    (hf : ∀ c ∈ cs, c.type ≠ some (JVal.str "FOOTER"))
    (h : applyComponents d cs = .ok d') : d'.footer = none := by
  induction cs generalizing d with
  | nil =>
    simp [applyComponents] at h
    rw [← h]; exact hd
  | cons c rest ih =>
    rw [applyComponents] at h
    cases hc : applyComponent d c with
    | error e => rw [hc] at h; simp [Bind.bind, Except.bind] at h
    | ok d1 =>
      rw [hc] at h
      simp only [Bind.bind, Except.bind] at h
      have hp := applyComponent_preserves d d1 c hc
      exact ih d1 (by rw [hp.2.2 (hf c (by simp)), hd]) (fun c' hc' => hf c' (by simp [hc'])) h

end WhatsAppTemplates

/-- **C3.** The sync pass resets every component-derived field before
repopulating from the fetched components (whatsapp_templates.py lines
237-242); consequently, whatever the record's previous footer was, a
template that arrives without a FOOTER component leaves the local `footer`
cleared (`None`) after its population succeeds. -/
theorem c3_sync_clears_absent_footer (d : WhatsAppTemplates.Doc)
    (t : NormalizedTemplate) (d' : WhatsAppTemplates.Doc)
    (hf : ∀ c ∈ t.components, c.type ≠ some (JVal.str "FOOTER"))
    (h : WhatsAppTemplates.applyTemplate d t = .ok d') :
    d'.footer = none :=
  WhatsAppTemplates.applyComponents_footer_none t.components _ d' rfl hf h

/-- Witness for C3: a record with a stale footer, repopulated from a
template with only a BODY component, ends with `footer = None`. -/
theorem c3_witness :
    ({ template := some (JVal.str "Body text") } : WhatsAppTemplates.Doc).footer = none :=
  c3_sync_clears_absent_footer { footer := some (JVal.str "stale footer") }
    { name := some (JVal.str "t1"),
      components := [{ type := some (JVal.str "BODY"), text := some (JVal.str "Body text") }] }
    { template := some (JVal.str "Body text") }
    (by decide) rfl

namespace WhatsAppTemplates

/-- The component loop never touches the record's identity fields. -/
theorem applyComponents_names (cs : List StdComponent) (d d' : Doc)
    (h : applyComponents d cs = .ok d') :
    d'.template_name = d.template_name ∧ d'.actual_name = d.actual_name := by
  induction cs generalizing d with
  | nil => simp [applyComponents] at h; rw [← h]; exact ⟨rfl, rfl⟩
  | cons c rest ih =>
    rw [applyComponents] at h
    cases hc : applyComponent d c with
    | error e => rw [hc] at h; simp [Bind.bind, Except.bind] at h
    | ok d1 =>
      rw [hc] at h
      simp only [Bind.bind, Except.bind] at h
      have hp := applyComponent_preserves d d1 c hc
      have hrest := ih d1 h
      exact ⟨hrest.1.trans hp.1, hrest.2.trans hp.2.1⟩

theorem applyTemplate_names (d : Doc) (t : NormalizedTemplate) (d' : Doc)
    (h : applyTemplate d t = .ok d') :
    d'.template_name = d.template_name ∧ d'.actual_name = d.actual_name := by
  unfold applyTemplate at h
  exact applyComponents_names t.components (assignAndReset d t) d' h

/-- The assign-and-reset step erases every field except the identity
fields, so two records agreeing on those populate identically. -/
theorem assignAndReset_congr (d1 d2 : Doc) (t : NormalizedTemplate)
    (h1 : d1.template_name = d2.template_name)
    (h2 : d1.actual_name = d2.actual_name) :
    assignAndReset d1 t = assignAndReset d2 t := by
  cases d1; cases d2
  simp only [assignAndReset]
  simp at h1 h2
  simp [h1, h2]

theorem applyTemplate_congr (d1 d2 : Doc) (t : NormalizedTemplate)
    (h1 : d1.template_name = d2.template_name)
    (h2 : d1.actual_name = d2.actual_name) :
    applyTemplate d1 t = applyTemplate d2 t := by
  unfold applyTemplate
  rw [assignAndReset_congr d1 d2 t h1 h2]

/-- Re-populating a record that was just populated from `t` reproduces it
exactly: population depends on the prior record only through the identity
fields, which population preserves. -/
theorem applyTemplate_fixpoint (d v : Doc) (t : NormalizedTemplate)
    (h : applyTemplate d t = .ok v) : applyTemplate v t = .ok v := by
  have hn := applyTemplate_names d t v h
  rw [applyTemplate_congr v d t hn.1 hn.2]
  exact h

theorem storeGet_cons_pos (k' k : JVal) (d' : Doc) (s : Store) (hk : k' = k) :
    storeGet ((k', d') :: s) k = some d' := by
  have hb : (k' == k) = true := beq_iff_eq.mpr hk
  simp [storeGet, List.find?, hb]

theorem storeGet_cons_neg (k' k : JVal) (d' : Doc) (s : Store) (hk : ¬(k' = k)) :
    storeGet ((k', d') :: s) k = storeGet s k := by
  have hb : (k' == k) = false := beq_eq_false_iff_ne.mpr hk
  simp [storeGet, List.find?, hb]

/-- Writing back the value already stored at a key is a no-op. -/
theorem storePut_self (s : Store) (k : JVal) (v : Doc)
    (h : storeGet s k = some v) : storePut s k v = s := by
  induction s with
  | nil => simp [storeGet] at h
  | cons p rest ih =>
    obtain ⟨k', d'⟩ := p
    by_cases hk : k' = k
    · rw [storeGet_cons_pos k' k d' rest hk] at h
      simp only [storePut, beq_iff_eq.mpr hk, if_true]
      simp at h
      rw [h]
    · rw [storeGet_cons_neg k' k d' rest hk] at h
      have hb : (k' == k) = false := beq_eq_false_iff_ne.mpr hk
      simp only [storePut, hb, Bool.false_eq_true, if_false]
      rw [ih h]

theorem storeGet_storePut_present (s : Store) (k : JVal) (v w : Doc)
    (h : storeGet s k = some w) : storeGet (storePut s k v) k = some v := by
  induction s with
  | nil => simp [storeGet] at h
  | cons p rest ih =>
    obtain ⟨k', d'⟩ := p
    by_cases hk : k' = k
    · simp only [storePut, beq_iff_eq.mpr hk, if_true]
      exact storeGet_cons_pos k' k v rest hk
    · rw [storeGet_cons_neg k' k d' rest hk] at h
      have hb : (k' == k) = false := beq_eq_false_iff_ne.mpr hk
      simp only [storePut, hb, Bool.false_eq_true, if_false]
      rw [storeGet_cons_neg k' k d' _ hk]
      exact ih h

theorem storeGet_storePut_ne (s : Store) (k k0 : JVal) (v : Doc)
    (h : k ≠ k0) : storeGet (storePut s k0 v) k = storeGet s k := by
  induction s with
  | nil => simp [storePut]
  | cons p rest ih =>
    obtain ⟨k', d'⟩ := p
    by_cases hk : k' = k0
    · simp only [storePut, beq_iff_eq.mpr hk, if_true]
      rw [storeGet_cons_neg k' k v rest (by rw [hk]; exact fun he => h he.symm)]
      rw [storeGet_cons_neg k' k d' rest (by rw [hk]; exact fun he => h he.symm)]
    · have hb : (k' == k0) = false := beq_eq_false_iff_ne.mpr hk
      simp only [storePut, hb, Bool.false_eq_true, if_false]
      by_cases hkk : k' = k
      · rw [storeGet_cons_pos k' k d' _ hkk, storeGet_cons_pos k' k d' rest hkk]
      · rw [storeGet_cons_neg k' k d' _ hkk, storeGet_cons_neg k' k d' rest hkk]
        exact ih

theorem storeGet_append_sngl (s : Store) (k0 : JVal) (v : Doc) (k : JVal) :
    storeGet (s ++ [(k0, v)]) k =
      match storeGet s k with
      | some d => some d
      | none => if k0 = k then some v else none := by
  induction s with
  | nil =>
    by_cases hk : k0 = k
    · rw [List.nil_append, storeGet_cons_pos k0 k v [] hk]
      simp [storeGet, hk]
    · rw [List.nil_append, storeGet_cons_neg k0 k v [] hk]
      simp [storeGet, hk]
  | cons p rest ih =>
    obtain ⟨k', d'⟩ := p
    by_cases hk : k' = k
    · rw [List.cons_append, storeGet_cons_pos k' k d' _ hk, storeGet_cons_pos k' k d' rest hk]
    · rw [List.cons_append, storeGet_cons_neg k' k d' _ hk, storeGet_cons_neg k' k d' rest hk]
      exact ih

/-- One loop iteration touches no key other than its template's. -/
theorem syncOne_ne_key (s s' : Store) (t : NormalizedTemplate) (k : JVal)
    (h : syncOne s t = .ok s') (hk : k ≠ tKey t) :
    storeGet s' k = storeGet s k := by
  unfold syncOne at h
  cases hg : storeGet s (tKey t) with
  | some d =>
    rw [hg] at h
    dsimp only at h
    cases ha : applyTemplate d t with
    | error e => rw [ha] at h; simp [Except.map] at h
    | ok v =>
      rw [ha] at h; simp [Except.map] at h
      rw [← h]
      exact storeGet_storePut_ne s k (tKey t) v hk
  | none =>
    rw [hg] at h
    dsimp only at h
    cases ha : applyTemplate (newDoc (tKey t)) t with
    | error e => rw [ha] at h; simp [Except.map] at h
    | ok v =>
      rw [ha] at h; simp [Except.map] at h
      rw [← h, storeGet_append_sngl s (tKey t) v k]
      cases hgk : storeGet s k with
      | some d => rfl
      | none =>
        dsimp only
        rw [if_neg (Ne.symm hk)]

/-- After a successful iteration, the record now stored under the
template's key is a fixpoint of populating from that template. -/
theorem syncOne_ok_fixed (s s' : Store) (t : NormalizedTemplate)
    (h : syncOne s t = .ok s') :
    ∃ v, storeGet s' (tKey t) = some v ∧ applyTemplate v t = .ok v := by
  unfold syncOne at h
  cases hg : storeGet s (tKey t) with
  | some d =>
    rw [hg] at h
    dsimp only at h
    cases ha : applyTemplate d t with
    | error e => rw [ha] at h; simp [Except.map] at h
    | ok v =>
      rw [ha] at h; simp [Except.map] at h
      refine ⟨v, ?_, applyTemplate_fixpoint d v t ha⟩
      rw [← h]
      exact storeGet_storePut_present s (tKey t) v d hg
  | none =>
    rw [hg] at h
    dsimp only at h
    cases ha : applyTemplate (newDoc (tKey t)) t with
    | error e => rw [ha] at h; simp [Except.map] at h
    | ok v =>
      rw [ha] at h; simp [Except.map] at h
      refine ⟨v, ?_, applyTemplate_fixpoint (newDoc (tKey t)) v t ha⟩
      rw [← h, storeGet_append_sngl s (tKey t) v (tKey t), hg]
      simp

/-- An iteration hitting a record that is already a fixpoint of its
template leaves the store unchanged. -/
theorem syncOne_fixed_self (s : Store) (t : NormalizedTemplate) (v : Doc)
    (hg : storeGet s (tKey t) = some v)
    (hfix : applyTemplate v t = .ok v) : syncOne s t = .ok s := by
  unfold syncOne
  rw [hg]
  dsimp only
  rw [hfix]
  simp [Except.map, storePut_self s (tKey t) v hg]

theorem fetch_preserves_ne (ts : List NormalizedTemplate) :
    ∀ (s : Store) (k : JVal), k ∉ ts.map tKey →
    storeGet (fetch s ts).1 k = storeGet s k := by
  induction ts with
  | nil => intro s k _; rfl
  | cons t rest ih =>
    intro s k hk
    rw [List.map_cons, List.mem_cons] at hk
    push_neg at hk
    rw [fetch]
    cases hs : syncOne s t with
    | error e => rfl
    | ok s' =>
      rw [(ih s' k hk.2 : _), syncOne_ne_key s s' t k hs hk.1]

/-- A pass over templates whose records are all fixpoints is a no-op. -/
theorem fetch_fixed (ts : List NormalizedTemplate) (s : Store)
    (hfix : ∀ t ∈ ts, ∃ v, storeGet s (tKey t) = some v ∧ applyTemplate v t = .ok v) :
    fetch s ts = (s, none) := by
  induction ts with
  | nil => rfl
  | cons t rest ih =>
    obtain ⟨v, hg, ha⟩ := hfix t (by simp)
    rw [fetch, syncOne_fixed_self s t v hg ha]
    exact ih (fun t' ht' => hfix t' (by simp [ht']))

/-- A completed pass leaves every processed template's record a fixpoint
of that template (for pairwise-distinct template names). -/
theorem fetch_establishes (ts : List NormalizedTemplate) :
    (ts.map tKey).Nodup →
    ∀ (s s1 : Store), fetch s ts = (s1, none) →
    ∀ t ∈ ts, ∃ v, storeGet s1 (tKey t) = some v ∧ applyTemplate v t = .ok v := by
  induction ts with
  | nil => intro _ s s1 h t ht; simp at ht
  | cons t0 rest ih =>
    intro hnd s s1 h t ht
    rw [fetch] at h
    cases hs : syncOne s t0 with
    | error e => rw [hs] at h; simp at h
    | ok s' =>
      rw [hs] at h
      dsimp only at h
      rw [List.map_cons, List.nodup_cons] at hnd
      rcases List.mem_cons.mp ht with rfl | hmem
      · obtain ⟨v, hv, hfix⟩ := syncOne_ok_fixed s s' t hs
        have hpres := fetch_preserves_ne rest s' (tKey t) hnd.1
        rw [h] at hpres
        exact ⟨v, hpres.trans hv, hfix⟩
      · exact ih hnd.2 s' s1 h t hmem

theorem fetch_append (xs ys : List NormalizedTemplate) :
    ∀ s : Store, fetch s (xs ++ ys) =
      match fetch s xs with
      | (s', none) => fetch s' ys
      | (s', some e) => (s', some e) := by
  induction xs with
  | nil => intro s; rfl
  | cons x rest ih =>
    intro s
    rw [List.cons_append, fetch, fetch]
    cases hs : syncOne s x with
    | error e => rfl
    | ok s' => exact ih s'

/-- A pass that ended in an uncaught exception splits into a completed
prefix, the raising template, and an unprocessed remainder. -/
theorem fetch_error_split (ts : List NormalizedTemplate) :
    ∀ (s s1 : Store) (e : String), fetch s ts = (s1, some e) →
    ∃ pre t post, ts = pre ++ t :: post ∧ fetch s pre = (s1, none) ∧
      syncOne s1 t = .error e := by
  induction ts with
  | nil => intro s s1 e h; simp [fetch] at h
  | cons t0 rest ih =>
    intro s s1 e h
    rw [fetch] at h
    cases hs : syncOne s t0 with
    | error e0 =>
      rw [hs] at h
      simp at h
      refine ⟨[], t0, rest, by simp, ?_, ?_⟩
      · rw [← h.1]; rfl
      · rw [← h.1, ← h.2]; exact hs
    | ok s' =>
      rw [hs] at h
      obtain ⟨pre, t, post, hts, hpre, herr⟩ := ih s' s1 e h
      refine ⟨t0 :: pre, t, post, by rw [hts]; rfl, ?_, herr⟩
      rw [fetch, hs]
      exact hpre

end WhatsAppTemplates

/-- **C4.** With the upstream templates carrying pairwise-distinct names
(the spec's own invariant: name + provider uniquely identifies a
template), running the `fetch()` sync pass a second time over the same
normalized template list reproduces the first pass's outcome exactly: the
store after the second pass is the store after the first — so no record
is duplicated (an existing record, looked up by its name key, is updated
in place) and no field changes value — and even an aborting pass aborts at
the same template with the same error. -/
theorem c4_sync_idempotent (s : WhatsAppTemplates.Store)
    (ts : List NormalizedTemplate)
    (hnd : (ts.map WhatsAppTemplates.tKey).Nodup) :
    WhatsAppTemplates.fetch (WhatsAppTemplates.fetch s ts).1 ts =
      WhatsAppTemplates.fetch s ts := by
  cases hres : WhatsAppTemplates.fetch s ts with
  | mk s1 r =>
    cases r with
    | none =>
      have hfix := WhatsAppTemplates.fetch_establishes ts hnd s s1 hres
      simpa using WhatsAppTemplates.fetch_fixed ts s1 hfix
    | some e =>
      obtain ⟨pre, t, post, hts, hpre, herr⟩ :=
        WhatsAppTemplates.fetch_error_split ts s s1 e hres
      have hndpre : (pre.map WhatsAppTemplates.tKey).Nodup := by
        rw [hts, List.map_append, List.nodup_append] at hnd
        exact hnd.1
      have hfix := WhatsAppTemplates.fetch_establishes pre hndpre s s1 hpre
      have h1 : WhatsAppTemplates.fetch s1 pre = (s1, none) :=
        WhatsAppTemplates.fetch_fixed pre s1 hfix
      simp only []
      rw [hts, WhatsAppTemplates.fetch_append, h1]
      simp only [WhatsAppTemplates.fetch, herr]

/-- Witness for C4: a concrete two-template sync from an empty store is
idempotent. -/
theorem c4_witness :
    WhatsAppTemplates.fetch
      (WhatsAppTemplates.fetch []
        [{ name := some (JVal.str "order_update"),
           components := [{ type := some (JVal.str "BODY"),
                            text := some (JVal.str "Hi") }] },
         { name := some (JVal.str "welcome"),
           components := [{ type := some (JVal.str "FOOTER"),
                            text := some (JVal.str "Bye") }] }]).1
      [{ name := some (JVal.str "order_update"),
         components := [{ type := some (JVal.str "BODY"),
                          text := some (JVal.str "Hi") }] },
       { name := some (JVal.str "welcome"),
         components := [{ type := some (JVal.str "FOOTER"),
                          text := some (JVal.str "Bye") }] }] =
    WhatsAppTemplates.fetch []
      [{ name := some (JVal.str "order_update"),
         components := [{ type := some (JVal.str "BODY"),
                          text := some (JVal.str "Hi") }] },
       { name := some (JVal.str "welcome"),
         components := [{ type := some (JVal.str "FOOTER"),
                          text := some (JVal.str "Bye") }] }] :=
  c4_sync_idempotent []
    [{ name := some (JVal.str "order_update"),
       components := [{ type := some (JVal.str "BODY"),
                        text := some (JVal.str "Hi") }] },
     { name := some (JVal.str "welcome"),
       components := [{ type := some (JVal.str "FOOTER"),
                        text := some (JVal.str "Bye") }] }]
    (by decide)
